import Mathlib

/-!
Verification of the Nodle plugin template (`src/lib.rs`) against its
specification.  The two example nodes (`HelloWorldNode`, `MathAddNode`),
their factories and the plugin's registration logic are embedded as pure
Lean functions.  Rust `f32` values are modelled as rationals (the values
the spec exercises are exactly representable), `HashMap` as association
lists, and mutation of `&mut self` as state-passing: a method on `&mut
self` becomes a function returning the updated node (paired with its
Rust return value when there is one).
-/

/-- Modelled from the spec: `NodeData` is the SDK's closed tagged union of
value kinds (spec section 3); the template only exercises the `String` and
`Float` variants, with floats modelled as rationals. -/
inductive NodeData where
  | string (s : String)
  | float (f : ℚ)
  deriving DecidableEq, Repr

/-- Modelled from the spec: conversions fail (return nothing) on a
variant mismatch rather than coercing (spec section 3). -/
def NodeData.as_string : NodeData → Option String
  | NodeData.string s => some s
  | _ => none

/-- Modelled from the spec: conversions fail (return nothing) on a
variant mismatch rather than coercing (spec section 3). -/
def NodeData.as_float : NodeData → Option ℚ
  | NodeData.float f => some f
  | _ => none

/-- Modelled from the spec: the SDK's 2D position type. -/
structure Pos2 where
  x : ℚ
  y : ℚ
  deriving DecidableEq, Repr

/-- Modelled from the spec: an inbound UI event; the template handles
`ParameterChanged` and ignores every other variant (`other` stands for
the SDK's remaining constructors). -/
inductive UIAction where
  | parameterChanged (parameter : String) (value : NodeData)
  | other
  deriving DecidableEq, Repr

/-- Modelled from the spec: the outbound acknowledgment carrying the
parameter name and the value the node actually committed. -/
structure ParameterChange where
  parameter : String
  value : NodeData
  deriving DecidableEq, Repr

/-- State of `HelloWorldNode` (`src/lib.rs` lines 65-69). -/
structure HelloWorldNode where
  id : String
  position : Pos2
  message : String
  deriving DecidableEq, Repr

/-- `HelloWorldNode::new` (lines 71-79); the nondeterministic `uuid()`
string is passed in as `uid`. -/
def HelloWorldNode.new (uid : String) (position : Pos2) : HelloWorldNode :=
  { id := "hello_world_" ++ uid
    position := position
    message := "Hello from plugin!" }

/-- `HelloWorldNode::set_position` (lines 90-92). -/
def HelloWorldNode.set_position (n : HelloWorldNode) (position : Pos2) : HelloWorldNode :=
  { n with position := position }

/-- `HelloWorldNode::handle_ui_action` (lines 109-131): returns the
updated node and the list of committed changes. -/
def HelloWorldNode.handle_ui_action (n : HelloWorldNode) (action : UIAction) :
    HelloWorldNode × List ParameterChange :=
  match action with
  | UIAction.parameterChanged parameter value =>
    if parameter = "message" then
      match value.as_string with
      | some msg =>
        ({ n with message := msg },
         [{ parameter := "message", value := NodeData.string msg }])
      | none => (n, [])
    else (n, [])
  | _ => (n, [])

/-- `HelloWorldNode::get_parameter` (lines 133-138). -/
def HelloWorldNode.get_parameter (n : HelloWorldNode) (name : String) : Option NodeData :=
  if name = "message" then some (NodeData.string n.message) else none

/-- `HelloWorldNode::set_parameter` (lines 140-149). -/
def HelloWorldNode.set_parameter (n : HelloWorldNode) (name : String) (value : NodeData) :
    HelloWorldNode :=
  if name = "message" then
    match value.as_string with
    | some msg => { n with message := msg }
    | none => n
  else n

/-- `HelloWorldNode::process` (lines 151-155): ignores its inputs and
emits the current message; the node state is returned unchanged. -/
def HelloWorldNode.process (n : HelloWorldNode) (_inputs : List (String × NodeData)) :
    HelloWorldNode × List (String × NodeData) :=
  (n, [("Message", NodeData.string n.message)])

/-- State of `MathAddNode` (lines 187-192). -/
structure MathAddNode where
  id : String
  position : Pos2
  a : ℚ
  b : ℚ
  deriving DecidableEq, Repr

/-- `MathAddNode::new` (lines 194-203); the nondeterministic `uuid()`
string is passed in as `uid`. -/
def MathAddNode.new (uid : String) (position : Pos2) : MathAddNode :=
  { id := "math_add_" ++ uid
    position := position
    a := 0
    b := 0 }

/-- `MathAddNode::set_position` (lines 214-216). -/
def MathAddNode.set_position (n : MathAddNode) (position : Pos2) : MathAddNode :=
  { n with position := position }

/-- `MathAddNode::handle_ui_action` (lines 245-276). -/
def MathAddNode.handle_ui_action (n : MathAddNode) (action : UIAction) :
    MathAddNode × List ParameterChange :=
  match action with
  | UIAction.parameterChanged parameter value =>
    if parameter = "a" then
      match value.as_float with
      | some val =>
        ({ n with a := val }, [{ parameter := "a", value := NodeData.float val }])
      | none => (n, [])
    else if parameter = "b" then
      match value.as_float with
      | some val =>
        ({ n with b := val }, [{ parameter := "b", value := NodeData.float val }])
      | none => (n, [])
    else (n, [])
  | _ => (n, [])

/-- `MathAddNode::get_parameter` (lines 278-284). -/
def MathAddNode.get_parameter (n : MathAddNode) (name : String) : Option NodeData :=
  if name = "a" then some (NodeData.float n.a)
  else if name = "b" then some (NodeData.float n.b)
  else none

/-- `MathAddNode::set_parameter` (lines 286-300). -/
def MathAddNode.set_parameter (n : MathAddNode) (name : String) (value : NodeData) :
    MathAddNode :=
  if name = "a" then
    match value.as_float with
    | some val => { n with a := val }
    | none => n
  else if name = "b" then
    match value.as_float with
    | some val => { n with b := val }
    | none => n
  else n

/-- `MathAddNode::process` (lines 302-314): inputs present under keys
"A"/"B" (and holding the `Float` variant) overwrite the stored
parameters, then the sum of the (possibly updated) parameters is
emitted under "Result". -/
def MathAddNode.process (n : MathAddNode) (inputs : List (String × NodeData)) :
    MathAddNode × List (String × NodeData) :=
  let n1 :=
    match List.lookup "A" inputs with
    | some (NodeData.float a) => { n with a := a }
    | _ => n
  let n2 :=
    match List.lookup "B" inputs with
    | some (NodeData.float b) => { n1 with b := b }
    | _ => n1
  (n2, [("Result", NodeData.float (n2.a + n2.b))])

/-- `HelloWorldNodeFactory::create_node` (lines 59-61). -/
def HelloWorldNodeFactory.create_node (uid : String) (position : Pos2) : HelloWorldNode :=
  HelloWorldNode.new uid position

/-- `MathAddNodeFactory::create_node` (lines 181-183). -/
def MathAddNodeFactory.create_node (uid : String) (position : Pos2) : MathAddNode :=
  MathAddNode.new uid position

/-- Modelled from the spec: the SDK's registration error; spec section
4.2 names `DuplicateType`. -/
inductive RegistryError where
  | duplicateType (type_id : String)
  deriving DecidableEq, Repr

/-- Modelled from the spec (section 4.2): `register_node_factory` inserts
under the factory's metadata type id, fails with `DuplicateType` when the
id is already present, and never silently overwrites.  The registry is
modelled as the list of registered type ids. -/
def register_node_factory (reg : List String) (type_id : String) :
    Except RegistryError (List String) :=
  if type_id ∈ reg then Except.error (RegistryError.duplicateType type_id)
  else Except.ok (reg ++ [type_id])

/-- Outcome of running Rust code that may panic: `Result::unwrap` on an
`Err` panics, which unwinds instead of returning a value. -/
inductive Unwind (α : Type) where
  | panic
  | value (a : α)
  deriving DecidableEq, Repr

/-- `ExamplePlugin::register_nodes` (lines 23-27): registers the two
factories, calling `.unwrap()` on each result — an `Err` from
`register_node_factory` therefore panics instead of being returned.
The factories' type ids are "HelloWorld" (line 46) and "PluginMathAdd"
(line 164). -/
def ExamplePlugin.register_nodes (reg : List String) : Unwind (List String) :=
  match register_node_factory reg "HelloWorld" with
  | Except.error _ => Unwind.panic
  | Except.ok r1 =>
    match register_node_factory r1 "PluginMathAdd" with
    | Except.error _ => Unwind.panic
    | Except.ok r2 => Unwind.value r2

/-- C1: `MathAddNode.process` with no inputs supplied returns outputs
computed from the node's current parameter state (with parameters a = 2
and b = 3 the "Result" output is Float 5), and for every call an input
supplied under key "A" holding a Float overrides the stored parameter
`a` for that call, so that `get_parameter "a"` afterwards returns the
overriding input value. -/
theorem mathAdd_process_uses_params_and_input_overrides
    (n : MathAddNode) (inputs : List (String × NodeData)) (v : ℚ)
    (hA : List.lookup "A" inputs = some (NodeData.float v)) :
    (n.process []).2 = [("Result", NodeData.float (n.a + n.b))] ∧
    (n.a = 2 → n.b = 3 → (n.process []).2 = [("Result", NodeData.float 5)]) ∧
    ((n.process inputs).1).get_parameter "a" = some (NodeData.float v) := by
  refine ⟨rfl, ?_, ?_⟩
  · intro ha hb
    norm_num [MathAddNode.process, List.lookup, ha, hb]
  · rcases hB : List.lookup "B" inputs with _ | d
    · simp [MathAddNode.process, hA, hB, MathAddNode.get_parameter]
    · cases d <;> simp [MathAddNode.process, hA, hB, MathAddNode.get_parameter]

/-- Witness for C1: a node with a = 2, b = 3 and the input list
supplying "A" = Float 10. -/
theorem mathAdd_process_uses_params_and_input_overrides_witness :
    List.lookup "A" [("A", NodeData.float 10)] = some (NodeData.float 10) ∧
    (MathAddNode.process ⟨"n", ⟨0, 0⟩, 2, 3⟩ []).2 = [("Result", NodeData.float 5)] ∧
    ((MathAddNode.process ⟨"n", ⟨0, 0⟩, 2, 3⟩
        [("A", NodeData.float 10)]).1).get_parameter "a" = some (NodeData.float 10) :=
  ⟨rfl,
   (mathAdd_process_uses_params_and_input_overrides ⟨"n", ⟨0, 0⟩, 2, 3⟩
     [("A", NodeData.float 10)] 10 rfl).2.1 rfl rfl,
   (mathAdd_process_uses_params_and_input_overrides ⟨"n", ⟨0, 0⟩, 2, 3⟩
     [("A", NodeData.float 10)] 10 rfl).2.2⟩

/-- C2 (code evidence): `ExamplePlugin.register_nodes` panics (unwinds)
when a registration fails — on a registry already containing
"HelloWorld" the `.unwrap()` hits the `DuplicateType` error and panics
instead of surfacing it; on an empty registry it succeeds, registering
both type ids. -/
theorem register_nodes_panics_on_duplicate :
    ExamplePlugin.register_nodes ["HelloWorld"] = Unwind.panic ∧
    ExamplePlugin.register_nodes [] = Unwind.value ["HelloWorld", "PluginMathAdd"] :=
  ⟨rfl, rfl⟩

/-- C3: for every node and every parameter name the node declares, when
the value is of the declared kind, `set_parameter` followed by
`get_parameter` returns exactly that value (MathAdd: "a" and "b" with
Float; HelloWorld: "message" with String). -/
theorem set_parameter_get_parameter_roundtrip :
    (∀ (n : MathAddNode) (v : ℚ),
      (n.set_parameter "a" (NodeData.float v)).get_parameter "a" =
        some (NodeData.float v) ∧
      (n.set_parameter "b" (NodeData.float v)).get_parameter "b" =
        some (NodeData.float v)) ∧
    (∀ (n : HelloWorldNode) (s : String),
      (n.set_parameter "message" (NodeData.string s)).get_parameter "message" =
        some (NodeData.string s)) :=
  ⟨fun _ _ => ⟨rfl, rfl⟩, fun _ _ => rfl⟩

/-- C4: `handle_ui_action (ParameterChanged P V)` leaves every node in
exactly the state `set_parameter P V` produces, and when P is unknown
or the kind of V does not match it returns an empty change list and
leaves the state unchanged. -/
theorem handle_ui_action_equiv_set_parameter :
    (∀ (n : MathAddNode) (P : String) (V : NodeData),
      (n.handle_ui_action (UIAction.parameterChanged P V)).1 = n.set_parameter P V ∧
      ((P ≠ "a" ∧ P ≠ "b") ∨ V.as_float = none →
        (n.handle_ui_action (UIAction.parameterChanged P V)).2 = [] ∧
        (n.handle_ui_action (UIAction.parameterChanged P V)).1 = n)) ∧
    (∀ (n : HelloWorldNode) (P : String) (V : NodeData),
      (n.handle_ui_action (UIAction.parameterChanged P V)).1 = n.set_parameter P V ∧
      (P ≠ "message" ∨ V.as_string = none →
        (n.handle_ui_action (UIAction.parameterChanged P V)).2 = [] ∧
        (n.handle_ui_action (UIAction.parameterChanged P V)).1 = n)) := by
  constructor
  · intro n P V
    by_cases hPa : P = "a"
    · subst hPa
      rcases hV : V.as_float with _ | f <;>
        simp [MathAddNode.handle_ui_action, MathAddNode.set_parameter, hV]
    · by_cases hPb : P = "b"
      · subst hPb
        rcases hV : V.as_float with _ | f <;>
          simp [MathAddNode.handle_ui_action, MathAddNode.set_parameter, hV, hPa]
      · simp [MathAddNode.handle_ui_action, MathAddNode.set_parameter, hPa, hPb]
  · intro n P V
    by_cases hP : P = "message"
    · subst hP
      rcases hV : V.as_string with _ | s <;>
        simp [HelloWorldNode.handle_ui_action, HelloWorldNode.set_parameter, hV]
    · simp [HelloWorldNode.handle_ui_action, HelloWorldNode.set_parameter, hP]

/-- Witness for C4: an unknown parameter name on concrete nodes yields
an empty change list and an unchanged node. -/
theorem handle_ui_action_equiv_set_parameter_witness :
    (("zz" ≠ "a" ∧ "zz" ≠ "b") ∨ (NodeData.float 1).as_float = none) ∧
    ((MathAddNode.handle_ui_action ⟨"n", ⟨0, 0⟩, 2, 3⟩
        (UIAction.parameterChanged "zz" (NodeData.float 1))).2 = [] ∧
     (MathAddNode.handle_ui_action ⟨"n", ⟨0, 0⟩, 2, 3⟩
        (UIAction.parameterChanged "zz" (NodeData.float 1))).1 = ⟨"n", ⟨0, 0⟩, 2, 3⟩) :=
  ⟨Or.inl ⟨by decide, by decide⟩,
   (handle_ui_action_equiv_set_parameter.1 ⟨"n", ⟨0, 0⟩, 2, 3⟩ "zz"
     (NodeData.float 1)).2 (Or.inl ⟨by decide, by decide⟩)⟩

/-- C5: for every node and every parameter name that node does not
declare (MathAdd declares only "a" and "b"; HelloWorld declares only
"message"), `get_parameter` returns none and `set_parameter` is a no-op
leaving the node (hence every existing parameter value) unchanged. -/
theorem unknown_parameter_is_silent_noop :
    (∀ (n : MathAddNode) (name : String) (v : NodeData),
      name ≠ "a" → name ≠ "b" →
      n.get_parameter name = none ∧ n.set_parameter name v = n) ∧
    (∀ (n : HelloWorldNode) (name : String) (v : NodeData),
      name ≠ "message" →
      n.get_parameter name = none ∧ n.set_parameter name v = n) := by
  constructor
  · intro n name v hma hmb
    simp [MathAddNode.get_parameter, MathAddNode.set_parameter, hma, hmb]
  · intro n name v hmsg
    simp [HelloWorldNode.get_parameter, HelloWorldNode.set_parameter, hmsg]

/-- Witness for C5 at the cross-node names: "message" is undeclared on
MathAdd and "a" is undeclared on HelloWorld. -/
theorem unknown_parameter_is_silent_noop_witness :
    (("message" : String) ≠ "a" ∧ ("message" : String) ≠ "b" ∧
      ("a" : String) ≠ "message") ∧
    (MathAddNode.get_parameter ⟨"n", ⟨0, 0⟩, 2, 3⟩ "message" = none ∧
     MathAddNode.set_parameter ⟨"n", ⟨0, 0⟩, 2, 3⟩ "message" (NodeData.string "x") =
       ⟨"n", ⟨0, 0⟩, 2, 3⟩) ∧
    (HelloWorldNode.get_parameter ⟨"h", ⟨0, 0⟩, "m"⟩ "a" = none ∧
     HelloWorldNode.set_parameter ⟨"h", ⟨0, 0⟩, "m"⟩ "a" (NodeData.float 1) =
       ⟨"h", ⟨0, 0⟩, "m"⟩) :=
  ⟨⟨by decide, by decide, by decide⟩,
   unknown_parameter_is_silent_noop.1 ⟨"n", ⟨0, 0⟩, 2, 3⟩ "message"
     (NodeData.string "x") (by decide) (by decide),
   unknown_parameter_is_silent_noop.2 ⟨"h", ⟨0, 0⟩, "m"⟩ "a"
     (NodeData.float 1) (by decide)⟩

/-- C6: `create_node` returns a node at the given position holding the
default parameter values (MathAdd: a = 0 and b = 0; HelloWorld:
message = "Hello from plugin!"). -/
theorem create_node_position_and_defaults (uid : String) (p : Pos2) :
    (MathAddNodeFactory.create_node uid p).position = p ∧
    (MathAddNodeFactory.create_node uid p).a = 0 ∧
    (MathAddNodeFactory.create_node uid p).b = 0 ∧
    (HelloWorldNodeFactory.create_node uid p).position = p ∧
    (HelloWorldNodeFactory.create_node uid p).message = "Hello from plugin!" :=
  ⟨rfl, rfl, rfl, rfl, rfl⟩

/-- C7: the node identifier is stable — none of `set_position`,
`set_parameter`, `handle_ui_action` and `process` changes the result of
a subsequent `id`. -/
theorem node_id_stable :
    (∀ (n : MathAddNode) (p : Pos2) (name : String) (v : NodeData) (act : UIAction)
        (inputs : List (String × NodeData)),
      (n.set_position p).id = n.id ∧
      (n.set_parameter name v).id = n.id ∧
      ((n.handle_ui_action act).1).id = n.id ∧
      ((n.process inputs).1).id = n.id) ∧
    (∀ (n : HelloWorldNode) (p : Pos2) (name : String) (v : NodeData) (act : UIAction)
        (inputs : List (String × NodeData)),
      (n.set_position p).id = n.id ∧
      (n.set_parameter name v).id = n.id ∧
      ((n.handle_ui_action act).1).id = n.id ∧
      ((n.process inputs).1).id = n.id) := by
  constructor
  · intro n p name v act inputs
    refine ⟨rfl, ?_, ?_, ?_⟩
    · unfold MathAddNode.set_parameter
      repeat' split
      all_goals rfl
    · unfold MathAddNode.handle_ui_action
      repeat' split
      all_goals rfl
    · unfold MathAddNode.process
      repeat' split
      all_goals rfl
  · intro n p name v act inputs
    refine ⟨rfl, ?_, ?_, rfl⟩
    · unfold HelloWorldNode.set_parameter
      repeat' split
      all_goals rfl
    · unfold HelloWorldNode.handle_ui_action
      repeat' split
      all_goals rfl

/-- C8: `set_position p` stores p and changes nothing else: position
reads back as p and every other field is unchanged. -/
theorem set_position_stores_and_frames (nm : MathAddNode) (nh : HelloWorldNode) (p : Pos2) :
    (nm.set_position p).position = p ∧ (nm.set_position p).id = nm.id ∧
    (nm.set_position p).a = nm.a ∧ (nm.set_position p).b = nm.b ∧
    (nh.set_position p).position = p ∧ (nh.set_position p).id = nh.id ∧
    (nh.set_position p).message = nh.message :=
  ⟨rfl, rfl, rfl, rfl, rfl, rfl, rfl⟩

/-- C9: the MathAdd node never clamps committed parameter values: for
every rational v (in particular values outside the UI slider range
[-100, 100]), a ParameterChanged action on "a" commits exactly v and
returns exactly one ParameterChange carrying Float v; likewise for
"b". -/
theorem mathAdd_handle_ui_action_never_clamps (n : MathAddNode) (v : ℚ) :
    n.handle_ui_action (UIAction.parameterChanged "a" (NodeData.float v)) =
      ({ n with a := v }, [{ parameter := "a", value := NodeData.float v }]) ∧
    n.handle_ui_action (UIAction.parameterChanged "b" (NodeData.float v)) =
      ({ n with b := v }, [{ parameter := "b", value := NodeData.float v }]) :=
  ⟨rfl, rfl⟩

/-- C10: the HelloWorld node's `process` ignores its inputs entirely and
mutates no state: for every input mapping it returns the unchanged node
together with exactly the output "Message" = String of the current
message parameter. -/
theorem helloWorld_process_ignores_inputs (n : HelloWorldNode)
    (inputs : List (String × NodeData)) :
    n.process inputs = (n, [("Message", NodeData.string n.message)]) :=
  rfl
